import Mathlib

/-!
The framebuffer request interface of urmfb.h

`urmfb.h` is a declaration-only C header.  This development embeds it twice:

* the *declarations* themselves (which types, members, enumerators and
  function prototypes the header contains, in source order) as data of type
  `Header`, so that statements about what the header declares can be checked;
* the *values* of the declared types (`PixelFormat`, `Orientation`,
  `UpdateMode`, `FBRequest`) as Lean types, with the integer code the header
  assigns to every enumerator.

Consistency lemmas connect the two views.
-/

namespace Urmfb

/-! ## Declarations -/

/-- The C types that occur in `urmfb.h`. An array of unspecified length
(`requests[]`) has `size = none`. -/
inductive CType
  | void
  | int
  | unsigned
  | enumT (tag : String)
  | structT (tag : String)
  | pointer (target : CType)
  | array (elem : CType) (size : Option Nat)
  deriving DecidableEq, Repr

/-- One enumerator of an `enum`: its identifier and the `= value` it is given. -/
structure Enumerator where
  ident : String
  value : Int
  deriving DecidableEq, Repr

/-- An `enum tag { ... }` definition. -/
structure EnumDecl where
  tag : String
  enumerators : List Enumerator
  deriving DecidableEq, Repr

/-- One member of a `struct`. `defines` holds the enumeration that is defined
inside the member declaration (`enum PixelFormat { ... } pix_fmt;`), if any. -/
structure Member where
  type : CType
  ident : String
  defines : Option EnumDecl
  deriving DecidableEq, Repr

/-- A `struct tag { ... };` definition. -/
structure StructDecl where
  tag : String
  members : List Member
  deriving DecidableEq, Repr

/-- One parameter of a prototype; `ident = none` for an unnamed parameter. -/
structure Param where
  type : CType
  ident : Option String
  deriving DecidableEq, Repr

/-- A function prototype. -/
structure FunDecl where
  result : CType
  ident : String
  params : List Param
  deriving DecidableEq, Repr

/-- A file-scope declaration of the header. -/
inductive Decl
  | structD (s : StructDecl)
  | enumD (e : EnumDecl)
  | funD (f : FunDecl)
  deriving DecidableEq, Repr

/-- Declaration `enum PixelFormat { ... }` (urmfb.h, lines 24-29). -/
def PixelFormat_decl : EnumDecl :=
  ⟨"PixelFormat",
    [⟨"PixelFormat_any", 0⟩,
     ⟨"PixelFormat_RGB_565", 1⟩,
     ⟨"PixelFormat_RGB_888", 2⟩,
     ⟨"PixelFormat_RGBA_8888", 3⟩]⟩

/-- Declaration `enum Orientation { ... }` (urmfb.h, lines 30-40). -/
def Orientation_decl : EnumDecl :=
  ⟨"Orientation",
    [⟨"Orientation_any", 0⟩,
     ⟨"Orientation_0_deg", 1⟩,
     ⟨"Orientation_90_deg", 2⟩,
     ⟨"Orientation_180_deg", 3⟩,
     ⟨"Orientation_270_deg", 4⟩,
     ⟨"Orientation_0_deg_mirr", 5⟩,
     ⟨"Orientation_90_deg_mirr", 6⟩,
     ⟨"Orientation_180_deg_mirr", 7⟩,
     ⟨"Orientation_270_deg_mirr", 8⟩]⟩

/-- Declaration `struct FBRequest { ... };` (urmfb.h, lines 21-48). -/
def FBRequest_decl : StructDecl :=
  ⟨"FBRequest",
    [⟨CType.unsigned, "width", none⟩,
     ⟨CType.unsigned, "height", none⟩,
     ⟨CType.enumT "PixelFormat", "pix_fmt", some PixelFormat_decl⟩,
     ⟨CType.enumT "Orientation", "orientation", some Orientation_decl⟩,
     ⟨CType.unsigned, "line_stride", none⟩,
     ⟨CType.pointer CType.void, "data", none⟩,
     ⟨CType.array CType.unsigned (some 9), "reserved", none⟩]⟩

/-- Declaration `enum UpdateMode { ... };` (urmfb.h, lines 50-57). -/
def UpdateMode_decl : EnumDecl :=
  ⟨"UpdateMode",
    [⟨"UpdateMode_any", 0⟩,
     ⟨"UpdateMode_clear", 1⟩,
     ⟨"UpdateMode_direct", 2⟩,
     ⟨"UpdateMode_hq", 3⟩,
     ⟨"UpdateMode_mq", 4⟩,
     ⟨"UpdateMode_fast", 5⟩]⟩

/-- Prototype `struct FBRequest *urmfb_acquire(struct FBRequest requests[], unsigned n_requests);` -/
def urmfb_acquire : FunDecl :=
  ⟨CType.pointer (CType.structT "FBRequest"), "urmfb_acquire",
    [⟨CType.array (CType.structT "FBRequest") none, some "requests"⟩,
     ⟨CType.unsigned, some "n_requests"⟩]⟩

/-- Prototype `void urmfb_update_sync(void *, unsigned, unsigned, unsigned, unsigned, enum UpdateMode);` -/
def urmfb_update_sync : FunDecl :=
  ⟨CType.void, "urmfb_update_sync",
    [⟨CType.pointer CType.void, none⟩,
     ⟨CType.unsigned, none⟩,
     ⟨CType.unsigned, none⟩,
     ⟨CType.unsigned, none⟩,
     ⟨CType.unsigned, none⟩,
     ⟨CType.enumT "UpdateMode", none⟩]⟩

/-- Prototype `int urmfb_update_async(void *, unsigned, unsigned, unsigned, unsigned, enum UpdateMode);` -/
def urmfb_update_async : FunDecl :=
  ⟨CType.int, "urmfb_update_async",
    [⟨CType.pointer CType.void, none⟩,
     ⟨CType.unsigned, none⟩,
     ⟨CType.unsigned, none⟩,
     ⟨CType.unsigned, none⟩,
     ⟨CType.unsigned, none⟩,
     ⟨CType.enumT "UpdateMode", none⟩]⟩

/-- Prototype `void urmfb_await_update(int handle);` -/
def urmfb_await_update : FunDecl :=
  ⟨CType.void, "urmfb_await_update", [⟨CType.int, some "handle"⟩]⟩

/-- Prototype `void urmfb_release(void *fb);` -/
def urmfb_release : FunDecl :=
  ⟨CType.void, "urmfb_release", [⟨CType.pointer CType.void, some "fb"⟩]⟩

/-- The whole header: its file-scope declarations in source order. -/
abbrev Header := List Decl

/-- The contents of `urmfb.h`. -/
def urmfb_h : Header :=
  [Decl.structD FBRequest_decl,
   Decl.enumD UpdateMode_decl,
   Decl.funD urmfb_acquire,
   Decl.funD urmfb_update_sync,
   Decl.funD urmfb_update_async,
   Decl.funD urmfb_await_update,
   Decl.funD urmfb_release]

/-- The enumerations one file-scope declaration defines: itself for an `enum`,
the ones defined inside its members for a `struct`, none for a prototype. -/
def Decl.enums : Decl → List EnumDecl
  | Decl.structD s => s.members.filterMap Member.defines
  | Decl.enumD e => [e]
  | Decl.funD _ => []

/-- All enumerations defined in a header, in source order. -/
def declaredEnums (h : Header) : List EnumDecl :=
  h.flatMap Decl.enums

/-- All structures defined in a header, in source order. -/
def declaredStructs (h : Header) : List StructDecl :=
  h.filterMap fun d => match d with
    | Decl.structD s => some s
    | _ => none

/-- All function prototypes of a header, in source order. -/
def declaredFunctions (h : Header) : List FunDecl :=
  h.filterMap fun d => match d with
    | Decl.funD f => some f
    | _ => none

/-! ## Values -/

/-- Values of `enum PixelFormat`. -/
inductive PixelFormat
  | PixelFormat_any
  | PixelFormat_RGB_565
  | PixelFormat_RGB_888
  | PixelFormat_RGBA_8888
  deriving DecidableEq, Repr, Fintype

/-- Values of `enum Orientation`. -/
inductive Orientation
  | Orientation_any
  | Orientation_0_deg
  | Orientation_90_deg
  | Orientation_180_deg
  | Orientation_270_deg
  | Orientation_0_deg_mirr
  | Orientation_90_deg_mirr
  | Orientation_180_deg_mirr
  | Orientation_270_deg_mirr
  deriving DecidableEq, Repr, Fintype

/-- Values of `enum UpdateMode`. -/
inductive UpdateMode
  | UpdateMode_any
  | UpdateMode_clear
  | UpdateMode_direct
  | UpdateMode_hq
  | UpdateMode_mq
  | UpdateMode_fast
  deriving DecidableEq, Repr, Fintype

open PixelFormat Orientation UpdateMode

/-- The integer constant of each `PixelFormat` enumerator. -/
def PixelFormat.code : PixelFormat → Int
  | PixelFormat_any => 0
  | PixelFormat_RGB_565 => 1
  | PixelFormat_RGB_888 => 2
  | PixelFormat_RGBA_8888 => 3

/-- The identifier of each `PixelFormat` enumerator. -/
def PixelFormat.ident : PixelFormat → String
  | PixelFormat_any => "PixelFormat_any"
  | PixelFormat_RGB_565 => "PixelFormat_RGB_565"
  | PixelFormat_RGB_888 => "PixelFormat_RGB_888"
  | PixelFormat_RGBA_8888 => "PixelFormat_RGBA_8888"

/-- The `PixelFormat` enumerators in source order. -/
def PixelFormat.enumerators : List PixelFormat :=
  [PixelFormat_any, PixelFormat_RGB_565, PixelFormat_RGB_888, PixelFormat_RGBA_8888]

/-- The integer constant of each `Orientation` enumerator. -/
def Orientation.code : Orientation → Int
  | Orientation_any => 0
  | Orientation_0_deg => 1
  | Orientation_90_deg => 2
  | Orientation_180_deg => 3
  | Orientation_270_deg => 4
  | Orientation_0_deg_mirr => 5
  | Orientation_90_deg_mirr => 6
  | Orientation_180_deg_mirr => 7
  | Orientation_270_deg_mirr => 8

/-- The identifier of each `Orientation` enumerator. -/
def Orientation.ident : Orientation → String
  | Orientation_any => "Orientation_any"
  | Orientation_0_deg => "Orientation_0_deg"
  | Orientation_90_deg => "Orientation_90_deg"
  | Orientation_180_deg => "Orientation_180_deg"
  | Orientation_270_deg => "Orientation_270_deg"
  | Orientation_0_deg_mirr => "Orientation_0_deg_mirr"
  | Orientation_90_deg_mirr => "Orientation_90_deg_mirr"
  | Orientation_180_deg_mirr => "Orientation_180_deg_mirr"
  | Orientation_270_deg_mirr => "Orientation_270_deg_mirr"

/-- The `Orientation` enumerators in source order. -/
def Orientation.enumerators : List Orientation :=
  [Orientation_any, Orientation_0_deg, Orientation_90_deg, Orientation_180_deg,
   Orientation_270_deg, Orientation_0_deg_mirr, Orientation_90_deg_mirr,
   Orientation_180_deg_mirr, Orientation_270_deg_mirr]

/-- The integer constant of each `UpdateMode` enumerator. -/
def UpdateMode.code : UpdateMode → Int
  | UpdateMode_any => 0
  | UpdateMode_clear => 1
  | UpdateMode_direct => 2
  | UpdateMode_hq => 3
  | UpdateMode_mq => 4
  | UpdateMode_fast => 5

/-- The identifier of each `UpdateMode` enumerator. -/
def UpdateMode.ident : UpdateMode → String
  | UpdateMode_any => "UpdateMode_any"
  | UpdateMode_clear => "UpdateMode_clear"
  | UpdateMode_direct => "UpdateMode_direct"
  | UpdateMode_hq => "UpdateMode_hq"
  | UpdateMode_mq => "UpdateMode_mq"
  | UpdateMode_fast => "UpdateMode_fast"

/-- The `UpdateMode` enumerators in source order. -/
def UpdateMode.enumerators : List UpdateMode :=
  [UpdateMode_any, UpdateMode_clear, UpdateMode_direct, UpdateMode_hq, UpdateMode_mq,
   UpdateMode_fast]

/-! ### Reading an orientation off its identifier

The header gives no functions on orientations; what an enumerator means is
carried by its identifier alone: `Orientation_<angle>_deg` with an optional
`_mirr` suffix, or `Orientation_any`. -/

/-- Decimal value of a run of digit characters. -/
def digitsValue (cs : List Char) : Nat :=
  cs.foldl (fun n c => 10 * n + (c.toNat - 48)) 0

/-- The rotation angle, in degrees, written in an enumerator identifier after the
enumeration tag and an underscore; `none` when no number stands there. -/
def identAngle (tag : String) (ident : String) : Option Nat :=
  let ds := (ident.data.drop (tag.data.length + 1)).takeWhile Char.isDigit
  if ds.isEmpty then none else some (digitsValue ds)

/-- Whether an enumerator identifier ends in `_mirr`. -/
def identMirrored (ident : String) : Bool :=
  "_mirr".data.isSuffixOf ident.data

/-- The rotation angle of an orientation in degrees; `none` for `Orientation_any`. -/
def Orientation.angle (o : Orientation) : Option Nat :=
  identAngle "Orientation" o.ident

/-- Whether an orientation is one of the mirrored ones. -/
def Orientation.mirrored (o : Orientation) : Bool :=
  identMirrored o.ident

/-! ### The request descriptor -/

/-- Width in bits of the C type `unsigned` on the targets of the header
(ILP32 and LP64 data models). -/
abbrev UINT_WIDTH : Nat := 32

/-- Values of the C type `unsigned`: the integers `0 .. 2^32 - 1`. -/
abbrev Unsigned : Type := Fin (2 ^ UINT_WIDTH)

/-- Values of `void *`: an address, `0` being the null pointer. What it points
to is not described by the header. -/
abbrev VoidPtr : Type := Nat

/-- Values of `struct FBRequest`. -/
structure FBRequest where
  width : Unsigned
  height : Unsigned
  pix_fmt : PixelFormat
  orientation : Orientation
  line_stride : Unsigned
  data : VoidPtr
  reserved : Fin 9 → Unsigned

/-- A request every scalar of which has the integer value zero, as C
initialisation with `= {0}` produces. -/
def FBRequest.zeroInitialised (r : FBRequest) : Prop :=
  r.width.val = 0 ∧ r.height.val = 0 ∧ r.pix_fmt.code = 0 ∧ r.orientation.code = 0 ∧
  r.line_stride.val = 0 ∧ r.data = 0 ∧ ∀ i : Fin 9, (r.reserved i).val = 0

/-! ## Consistency of the two views -/

theorem PixelFormat_decl_enumerators :
    PixelFormat_decl.enumerators
      = PixelFormat.enumerators.map fun p => ⟨p.ident, p.code⟩ := by
  decide

theorem Orientation_decl_enumerators :
    Orientation_decl.enumerators
      = Orientation.enumerators.map fun o => ⟨o.ident, o.code⟩ := by
  decide

theorem UpdateMode_decl_enumerators :
    UpdateMode_decl.enumerators
      = UpdateMode.enumerators.map fun m => ⟨m.ident, m.code⟩ := by
  decide

theorem Orientation_angle_mirrored_table :
    Orientation.enumerators.map (fun o => (o.angle, o.mirrored))
      = [(none, false), (some 0, false), (some 90, false), (some 180, false),
         (some 270, false), (some 0, true), (some 90, true), (some 180, true),
         (some 270, true)] := by
  decide

/-! ## Shared lemmas on the enumerator codes -/

theorem PixelFormat_code_injective : Function.Injective PixelFormat.code := by
  intro p q h
  cases p <;> cases q <;> first | rfl | (exact absurd h (by decide))

theorem Orientation_code_injective : Function.Injective Orientation.code := by
  intro p q h
  cases p <;> cases q <;> first | rfl | (exact absurd h (by decide))

theorem UpdateMode_code_injective : Function.Injective UpdateMode.code := by
  intro p q h
  cases p <;> cases q <;> first | rfl | (exact absurd h (by decide))

theorem PixelFormat_code_range (p : PixelFormat) : 0 ≤ p.code ∧ p.code ≤ 3 := by
  cases p <;> decide

theorem Orientation_code_range (o : Orientation) : 0 ≤ o.code ∧ o.code ≤ 8 := by
  cases o <;> decide

theorem UpdateMode_code_range (m : UpdateMode) : 0 ≤ m.code ∧ m.code ≤ 5 := by
  cases m <;> decide

theorem PixelFormat_code_surj (c : Int) (h0 : 0 ≤ c) (h3 : c ≤ 3) :
    ∃ p : PixelFormat, p.code = c := by
  interval_cases c
  · exact ⟨PixelFormat_any, rfl⟩
  · exact ⟨PixelFormat_RGB_565, rfl⟩
  · exact ⟨PixelFormat_RGB_888, rfl⟩
  · exact ⟨PixelFormat_RGBA_8888, rfl⟩

theorem Orientation_code_surj (c : Int) (h0 : 0 ≤ c) (h8 : c ≤ 8) :
    ∃ o : Orientation, o.code = c := by
  interval_cases c
  · exact ⟨Orientation_any, rfl⟩
  · exact ⟨Orientation_0_deg, rfl⟩
  · exact ⟨Orientation_90_deg, rfl⟩
  · exact ⟨Orientation_180_deg, rfl⟩
  · exact ⟨Orientation_270_deg, rfl⟩
  · exact ⟨Orientation_0_deg_mirr, rfl⟩
  · exact ⟨Orientation_90_deg_mirr, rfl⟩
  · exact ⟨Orientation_180_deg_mirr, rfl⟩
  · exact ⟨Orientation_270_deg_mirr, rfl⟩

theorem UpdateMode_code_surj (c : Int) (h0 : 0 ≤ c) (h5 : c ≤ 5) :
    ∃ m : UpdateMode, m.code = c := by
  interval_cases c
  · exact ⟨UpdateMode_any, rfl⟩
  · exact ⟨UpdateMode_clear, rfl⟩
  · exact ⟨UpdateMode_direct, rfl⟩
  · exact ⟨UpdateMode_hq, rfl⟩
  · exact ⟨UpdateMode_mq, rfl⟩
  · exact ⟨UpdateMode_fast, rfl⟩

/-! ## The enumerations -/

/-- C1: the enumeration defined at member `pix_fmt` of `struct FBRequest` is
`PixelFormat`; it has exactly the four enumerators any, RGB_565, RGB_888 and
RGBA_8888 with the codes 0, 1, 2 and 3 in that order; the code map is
injective, and every integer code from 0 to 3 is the code of exactly one
enumerator. -/
theorem PixelFormat_four_enumerators :
    (FBRequest_decl.members.filter fun m => m.ident = "pix_fmt").map Member.defines
        = [some PixelFormat_decl] ∧
    PixelFormat_decl.enumerators
        = [⟨"PixelFormat_any", 0⟩, ⟨"PixelFormat_RGB_565", 1⟩,
           ⟨"PixelFormat_RGB_888", 2⟩, ⟨"PixelFormat_RGBA_8888", 3⟩] ∧
    Fintype.card PixelFormat = 4 ∧
    (∀ p : PixelFormat, p = PixelFormat_any ∨ p = PixelFormat_RGB_565 ∨
        p = PixelFormat_RGB_888 ∨ p = PixelFormat_RGBA_8888) ∧
    PixelFormat_any.code = 0 ∧ PixelFormat_RGB_565.code = 1 ∧
    PixelFormat_RGB_888.code = 2 ∧ PixelFormat_RGBA_8888.code = 3 ∧
    (PixelFormat.enumerators.map PixelFormat.code).Pairwise (fun a b => a ≠ b) ∧
    Function.Injective PixelFormat.code ∧
    (∀ c : Int, 0 ≤ c → c ≤ 3 → ∃! p : PixelFormat, p.code = c) := by
  refine ⟨by decide, by decide, by decide, ?_, rfl, rfl, rfl, rfl, by decide,
    PixelFormat_code_injective, ?_⟩
  · intro p
    cases p <;> simp
  · intro c h0 h3
    obtain ⟨p, hp⟩ := PixelFormat_code_surj c h0 h3
    exact ⟨p, hp, fun q hq => PixelFormat_code_injective (hq.trans hp.symm)⟩

/-- Witness for C1 at the code 2: it decodes to `PixelFormat_RGB_888` and to
nothing else. -/
theorem PixelFormat_four_enumerators_witness :
    ∃! p : PixelFormat, p.code = 2 :=
  PixelFormat_four_enumerators.2.2.2.2.2.2.2.2.2.2 2 (by decide) (by decide)

/-- C2: the enumeration defined at member `orientation` of `struct FBRequest`
is `Orientation`; it has exactly nine enumerators: any, the four rotations by 0,
90, 180 and 270 degrees and the four mirrored rotations by 0, 90, 180 and 270
degrees; their codes are pairwise distinct and are exactly the integers
0 to 8. -/
theorem Orientation_nine_enumerators :
    (FBRequest_decl.members.filter fun m => m.ident = "orientation").map Member.defines
        = [some Orientation_decl] ∧
    Orientation_decl.enumerators.map Enumerator.ident
        = ["Orientation_any", "Orientation_0_deg", "Orientation_90_deg",
           "Orientation_180_deg", "Orientation_270_deg", "Orientation_0_deg_mirr",
           "Orientation_90_deg_mirr", "Orientation_180_deg_mirr",
           "Orientation_270_deg_mirr"] ∧
    Orientation_decl.enumerators.length = 9 ∧
    Fintype.card Orientation = 9 ∧
    (∀ o : Orientation, o ∈ Orientation.enumerators) ∧
    Orientation.enumerators.map (fun o => (o.angle, o.mirrored))
        = [(none, false),
           (some 0, false), (some 90, false), (some 180, false), (some 270, false),
           (some 0, true), (some 90, true), (some 180, true), (some 270, true)] ∧
    (∀ o : Orientation, o.angle = none ↔ o = Orientation_any) ∧
    (Orientation.enumerators.map Orientation.code).Pairwise (fun a b => a ≠ b) ∧
    Function.Injective Orientation.code ∧
    (∀ c : Int, (∃ o : Orientation, o.code = c) ↔ 0 ≤ c ∧ c ≤ 8) := by
  refine ⟨by decide, by decide, by decide, by decide, ?_, by decide, ?_, by decide,
    Orientation_code_injective, ?_⟩
  · intro o
    cases o <;> decide
  · intro o
    cases o <;> decide
  · intro c
    constructor
    · rintro ⟨o, rfl⟩
      exact Orientation_code_range o
    · rintro ⟨h0, h8⟩
      exact Orientation_code_surj c h0 h8

/-- Witness for C2 at the code 6, the code of `Orientation_90_deg_mirr`. -/
theorem Orientation_nine_enumerators_witness :
    (∃ o : Orientation, o.code = 6) ∧ ¬ (∃ o : Orientation, o.code = 9) :=
  ⟨(Orientation_nine_enumerators.2.2.2.2.2.2.2.2.2 6).2 (by decide),
   fun h => absurd ((Orientation_nine_enumerators.2.2.2.2.2.2.2.2.2 9).1 h) (by decide)⟩

/-- C4: the last parameter of `urmfb_update_sync` and of `urmfb_update_async`
has type `enum UpdateMode`; that enumeration has exactly the six enumerators
any, clear, direct, hq, mq and fast with the codes 0 to 5 in that order; the
codes are pairwise distinct, and in particular fast and hq have different
codes. -/
theorem UpdateMode_six_enumerators :
    urmfb_update_sync.params.getLast?.map Param.type = some (CType.enumT UpdateMode_decl.tag) ∧
    urmfb_update_async.params.getLast?.map Param.type = some (CType.enumT UpdateMode_decl.tag) ∧
    UpdateMode_decl.enumerators
        = [⟨"UpdateMode_any", 0⟩, ⟨"UpdateMode_clear", 1⟩, ⟨"UpdateMode_direct", 2⟩,
           ⟨"UpdateMode_hq", 3⟩, ⟨"UpdateMode_mq", 4⟩, ⟨"UpdateMode_fast", 5⟩] ∧
    Fintype.card UpdateMode = 6 ∧
    (∀ m : UpdateMode, m = UpdateMode_any ∨ m = UpdateMode_clear ∨ m = UpdateMode_direct ∨
        m = UpdateMode_hq ∨ m = UpdateMode_mq ∨ m = UpdateMode_fast) ∧
    UpdateMode_any.code = 0 ∧ UpdateMode_clear.code = 1 ∧ UpdateMode_direct.code = 2 ∧
    UpdateMode_hq.code = 3 ∧ UpdateMode_mq.code = 4 ∧ UpdateMode_fast.code = 5 ∧
    (UpdateMode.enumerators.map UpdateMode.code).Pairwise (fun a b => a ≠ b) ∧
    Function.Injective UpdateMode.code ∧
    UpdateMode_fast ≠ UpdateMode_hq ∧ UpdateMode_fast.code ≠ UpdateMode_hq.code := by
  refine ⟨by decide, by decide, by decide, by decide, ?_, rfl, rfl, rfl, rfl, rfl, rfl,
    by decide, UpdateMode_code_injective, by decide, by decide⟩
  intro m
  cases m <;> simp

/-! ## The request descriptor and the prototypes -/

/-- C3: `struct FBRequest` is the only structure of the header and has exactly
seven members, in this order: `width` and `height` (unsigned), `pix_fmt`
(enum PixelFormat), `orientation` (enum Orientation), `line_stride` (unsigned),
`data` (pointer to void) and `reserved` (array of nine unsigned). -/
theorem FBRequest_members :
    declaredStructs urmfb_h = [FBRequest_decl] ∧
    FBRequest_decl.tag = "FBRequest" ∧
    FBRequest_decl.members.length = 7 ∧
    FBRequest_decl.members.map (fun m => (m.ident, m.type))
        = [("width", CType.unsigned),
           ("height", CType.unsigned),
           ("pix_fmt", CType.enumT "PixelFormat"),
           ("orientation", CType.enumT "Orientation"),
           ("line_stride", CType.unsigned),
           ("data", CType.pointer CType.void),
           ("reserved", CType.array CType.unsigned (some 9))] ∧
    (∀ m ∈ FBRequest_decl.members,
        m.ident ∈ ["width", "height", "pix_fmt", "orientation", "line_stride", "data",
          "reserved"]) ∧
    (FBRequest_decl.members.map Member.ident).Nodup := by
  decide

/-- C5: the header declares exactly the five functions `urmfb_acquire`,
`urmfb_update_sync`, `urmfb_update_async`, `urmfb_await_update` and
`urmfb_release`. `urmfb_acquire` takes an array of `struct FBRequest` and an
unsigned and returns a pointer to `struct FBRequest`; the two update functions
have the same parameter list (pointer to void, four unsigned, enum UpdateMode)
and results void and int; the only parameter of `urmfb_await_update` has the
result type of `urmfb_update_async`; `urmfb_release` takes a pointer to void and
returns void. -/
theorem header_five_functions :
    declaredFunctions urmfb_h
        = [urmfb_acquire, urmfb_update_sync, urmfb_update_async, urmfb_await_update,
           urmfb_release] ∧
    (declaredFunctions urmfb_h).length = 5 ∧
    (declaredFunctions urmfb_h).map FunDecl.ident
        = ["urmfb_acquire", "urmfb_update_sync", "urmfb_update_async",
           "urmfb_await_update", "urmfb_release"] ∧
    urmfb_acquire.params.map Param.type
        = [CType.array (CType.structT FBRequest_decl.tag) none, CType.unsigned] ∧
    urmfb_acquire.result = CType.pointer (CType.structT FBRequest_decl.tag) ∧
    urmfb_update_sync.params = urmfb_update_async.params ∧
    urmfb_update_sync.params.map Param.type
        = [CType.pointer CType.void, CType.unsigned, CType.unsigned, CType.unsigned,
           CType.unsigned, CType.enumT UpdateMode_decl.tag] ∧
    urmfb_update_sync.result = CType.void ∧
    urmfb_update_async.result = CType.int ∧
    urmfb_update_sync.result ≠ urmfb_update_async.result ∧
    urmfb_await_update.params.map Param.type = [urmfb_update_async.result] ∧
    urmfb_await_update.params.map Param.ident = [some "handle"] ∧
    urmfb_release.params.map Param.type = [CType.pointer CType.void] ∧
    urmfb_release.result = CType.void := by
  decide

/-- C6, as the claim states it, fails: the enumerations defined in the header
do not number two. -/
theorem declaredEnums_not_two :
    ¬ ((declaredEnums urmfb_h).map EnumDecl.tag).dedup.length = 2 := by
  decide

/-- C6, amended: the header defines three distinct enumerations, `PixelFormat`
and `Orientation` inside `struct FBRequest` and `UpdateMode` at file scope, next
to one structure and five functions. -/
theorem declaredEnums_three :
    declaredEnums urmfb_h = [PixelFormat_decl, Orientation_decl, UpdateMode_decl] ∧
    (declaredEnums urmfb_h).map EnumDecl.tag = ["PixelFormat", "Orientation", "UpdateMode"] ∧
    ((declaredEnums urmfb_h).map EnumDecl.tag).Nodup ∧
    ((declaredEnums urmfb_h).map EnumDecl.tag).dedup.length = 3 ∧
    (Decl.structD FBRequest_decl).enums = [PixelFormat_decl, Orientation_decl] ∧
    (urmfb_h.filter fun d => d matches Decl.enumD _) = [Decl.enumD UpdateMode_decl] ∧
    (declaredStructs urmfb_h).length = 1 ∧
    (declaredFunctions urmfb_h).length = 5 := by
  decide

/-- C7: every choice of width, height and line stride below 2^32, of pixel
format, orientation, data pointer and nine reserved values below 2^32 is
carried by some `FBRequest`; the type rejects no combination. -/
theorem FBRequest_no_invariant (w h ls : Nat) (pf : PixelFormat) (o : Orientation)
    (d : Nat) (res : Fin 9 → Nat)
    (hw : w < 2 ^ 32) (hh : h < 2 ^ 32) (hls : ls < 2 ^ 32) (hres : ∀ i, res i < 2 ^ 32) :
    ∃ r : FBRequest,
      r.width.val = w ∧ r.height.val = h ∧ r.pix_fmt = pf ∧ r.orientation = o ∧
      r.line_stride.val = ls ∧ r.data = d ∧ ∀ i, (r.reserved i).val = res i :=
  ⟨⟨⟨w, hw⟩, ⟨h, hh⟩, pf, o, ⟨ls, hls⟩, d, fun i => ⟨res i, hres i⟩⟩,
    rfl, rfl, rfl, rfl, rfl, rfl, fun _ => rfl⟩

/-- Witness for C7: a request of width 0 and height 0, and one of width 100 in
`PixelFormat_RGBA_8888` with a line stride of 1 and the largest width-32
values in the reserved fields. -/
theorem FBRequest_no_invariant_witness :
    (∃ r : FBRequest,
      r.width.val = 0 ∧ r.height.val = 0 ∧ r.pix_fmt = PixelFormat_any ∧
      r.orientation = Orientation_any ∧ r.line_stride.val = 0 ∧ r.data = 0 ∧
      ∀ i, (r.reserved i).val = 0) ∧
    (∃ r : FBRequest,
      r.width.val = 100 ∧ r.height.val = 0 ∧ r.pix_fmt = PixelFormat_RGBA_8888 ∧
      r.orientation = Orientation_270_deg_mirr ∧ r.line_stride.val = 1 ∧ r.data = 0 ∧
      ∀ i, (r.reserved i).val = 4294967295) :=
  ⟨FBRequest_no_invariant 0 0 0 PixelFormat_any Orientation_any 0 (fun _ => 0)
      (by decide) (by decide) (by decide) (fun _ => show (0 : Nat) < 2 ^ 32 by decide),
   FBRequest_no_invariant 100 0 1 PixelFormat_RGBA_8888 Orientation_270_deg_mirr 0
      (fun _ => 4294967295) (by decide) (by decide) (by decide)
      (fun _ => show (4294967295 : Nat) < 2 ^ 32 by decide)⟩

/-- C8: in each of the three enumerations the enumerator with code 0 is `any`
and no other; a zero-initialised `FBRequest` exists, and every such request has
`pix_fmt = PixelFormat_any`, `orientation = Orientation_any` and width, height,
line stride and all nine reserved values equal to 0. -/
theorem any_is_code_zero :
    (∀ p : PixelFormat, p.code = 0 ↔ p = PixelFormat_any) ∧
    (∀ o : Orientation, o.code = 0 ↔ o = Orientation_any) ∧
    (∀ m : UpdateMode, m.code = 0 ↔ m = UpdateMode_any) ∧
    (∃ r : FBRequest, r.zeroInitialised) ∧
    (∀ r : FBRequest, r.zeroInitialised →
      r.pix_fmt = PixelFormat_any ∧ r.orientation = Orientation_any ∧
      r.width = 0 ∧ r.height = 0 ∧ r.line_stride = 0 ∧ ∀ i, r.reserved i = 0) := by
  have hp : ∀ p : PixelFormat, p.code = 0 ↔ p = PixelFormat_any := by
    intro p
    cases p <;> decide
  have ho : ∀ o : Orientation, o.code = 0 ↔ o = Orientation_any := by
    intro o
    cases o <;> decide
  refine ⟨hp, ho, ?_, ?_, ?_⟩
  · intro m
    cases m <;> decide
  · exact ⟨⟨0, 0, PixelFormat_any, Orientation_any, 0, 0, fun _ => 0⟩,
      rfl, rfl, rfl, rfl, rfl, rfl, fun _ => rfl⟩
  · rintro r ⟨h1, h2, h3, h4, h5, -, h7⟩
    exact ⟨(hp _).1 h3, (ho _).1 h4, Fin.ext h1, Fin.ext h2, Fin.ext h5,
      fun i => Fin.ext (h7 i)⟩

/-- Witness for C8 at the request with all fields zero. -/
theorem any_is_code_zero_witness :
    (FBRequest.mk 0 0 PixelFormat_any Orientation_any 0 0 fun _ => 0).zeroInitialised ∧
    (FBRequest.mk 0 0 PixelFormat_any Orientation_any 0 0 fun _ => 0).pix_fmt
      = PixelFormat_any ∧
    (FBRequest.mk 0 0 PixelFormat_any Orientation_any 0 0 fun _ => 0).orientation
      = Orientation_any :=
  have hz : (FBRequest.mk 0 0 PixelFormat_any Orientation_any 0 0 fun _ => 0).zeroInitialised :=
    ⟨rfl, rfl, rfl, rfl, rfl, rfl, fun _ => rfl⟩
  ⟨hz, (any_is_code_zero.2.2.2.2 _ hz).1, (any_is_code_zero.2.2.2.2 _ hz).2.1⟩

/-- C9: the rotations by 0, 90, 180 and 270 degrees have the codes 1, 2, 3 and
4, that is angle / 90 + 1, strictly increasing with the angle; each rotation
angle has exactly one plain and one mirrored orientation, and the mirrored one
has the code of the plain one plus 4; an orientation other than `any` is
mirrored exactly when its code exceeds 4, and its angle is
((code - 1) mod 4) * 90. -/
theorem Orientation_code_layout :
    Orientation_0_deg.code = 1 ∧ Orientation_90_deg.code = 2 ∧
    Orientation_180_deg.code = 3 ∧ Orientation_270_deg.code = 4 ∧
    (∀ (o : Orientation) (a : Nat), o.mirrored = false → o.angle = some a →
        o.code = (a : Int) / 90 + 1) ∧
    (∀ (o p : Orientation) (a b : Nat), o.mirrored = false → p.mirrored = false →
        o.angle = some a → p.angle = some b → a < b → o.code < p.code) ∧
    (∀ a ∈ [0, 90, 180, 270],
        (∃! o : Orientation, o.angle = some a ∧ o.mirrored = false) ∧
        (∃! p : Orientation, p.angle = some a ∧ p.mirrored = true)) ∧
    (∀ (o p : Orientation) (a : Nat), o.angle = some a → p.angle = some a →
        o.mirrored = false → p.mirrored = true → p.code = o.code + 4) ∧
    (∀ o : Orientation, o ≠ Orientation_any → (o.mirrored = true ↔ o.code > 4)) ∧
    (∀ o : Orientation, o ≠ Orientation_any →
        o.angle.map Int.ofNat = some ((o.code - 1) % 4 * 90)) := by
  refine ⟨rfl, rfl, rfl, rfl, ?_, ?_, ?_, ?_, ?_, ?_⟩
  · have H : ∀ o : Orientation, o.mirrored = false → ∀ a ∈ o.angle,
        o.code = (a : Int) / 90 + 1 := by
      intro o
      cases o <;> decide
    exact fun o a hm ha => H o hm a ha
  · have H : ∀ o p : Orientation, o.mirrored = false → p.mirrored = false →
        ∀ a ∈ o.angle, ∀ b ∈ p.angle, a < b → o.code < p.code := by
      intro o p
      cases o <;> cases p <;> decide
    exact fun o p a b hmo hmp ha hb hab => H o p hmo hmp a ha b hb hab
  · intro a ha
    simp only [List.mem_cons, List.mem_singleton, List.not_mem_nil, or_false] at ha
    rcases ha with rfl | rfl | rfl | rfl
    · exact ⟨⟨Orientation_0_deg, by decide, fun q hq => by revert hq; cases q <;> decide⟩,
        ⟨Orientation_0_deg_mirr, by decide, fun q hq => by revert hq; cases q <;> decide⟩⟩
    · exact ⟨⟨Orientation_90_deg, by decide, fun q hq => by revert hq; cases q <;> decide⟩,
        ⟨Orientation_90_deg_mirr, by decide, fun q hq => by revert hq; cases q <;> decide⟩⟩
    · exact ⟨⟨Orientation_180_deg, by decide, fun q hq => by revert hq; cases q <;> decide⟩,
        ⟨Orientation_180_deg_mirr, by decide, fun q hq => by revert hq; cases q <;> decide⟩⟩
    · exact ⟨⟨Orientation_270_deg, by decide, fun q hq => by revert hq; cases q <;> decide⟩,
        ⟨Orientation_270_deg_mirr, by decide, fun q hq => by revert hq; cases q <;> decide⟩⟩
  · have H : ∀ o p : Orientation, ∀ a ∈ o.angle, p.angle = some a →
        o.mirrored = false → p.mirrored = true → p.code = o.code + 4 := by
      intro o p
      cases o <;> cases p <;> decide
    exact fun o p a ha hb hmo hmp => H o p a ha hb hmo hmp
  · intro o ho
    cases o <;> first | (exact absurd rfl ho) | decide
  · intro o ho
    cases o <;> first | (exact absurd rfl ho) | decide

/-- Witness for C9 at the rotation by 180 degrees: the mirrored orientation has
code 3 + 4 = 7, and it is mirrored because 7 > 4. -/
theorem Orientation_code_layout_witness :
    Orientation_180_deg_mirr.code = Orientation_180_deg.code + 4 ∧
    Orientation_180_deg.code = ((180 : Nat) : Int) / 90 + 1 ∧
    (Orientation_180_deg_mirr.mirrored = true ↔ Orientation_180_deg_mirr.code > 4) :=
  ⟨Orientation_code_layout.2.2.2.2.2.2.2.1 Orientation_180_deg Orientation_180_deg_mirr 180
      (by decide) (by decide) (by decide) (by decide),
   Orientation_code_layout.2.2.2.2.1 Orientation_180_deg 180 (by decide) (by decide),
   Orientation_code_layout.2.2.2.2.2.2.2.2.1 Orientation_180_deg_mirr (by decide)⟩

end Urmfb
